import Mathlib

set_option allowUnsafeReducibility true

attribute [semireducible] Rat.add Rat.sub Rat.mul Rat.inv

/-!
Shallow embedding of the statement-normalization engine in src/pdf_reader.py:
the bank-profile registry (BANK_CONFIG), the numeric parser (parse_number),
the transaction builder (extract_tables_from_pdf row loop), the ledger
verifier (verify_transactions), the control flow of main, and the paginated
description editor (edit_descriptions_paginated).

Modelling conventions:
- Python floats are modelled as rationals (ℚ); the inputs appearing in the
  claims are all exactly representable, so float and rational arithmetic
  agree on them.
- Python exceptions that escape an expression are modelled with
  `Except String`; the blanket try/except around the extraction page loop
  is modelled by `runRows`, which stops at the first raised error and keeps
  the rows accumulated so far.
- Regex matching with the per-bank patterns is embedded as concrete
  character-list matchers for the three configured patterns; the profile
  record carries the matchers as functions.  The HDFC opening-marker
  pattern "?" is an invalid regex (re.error: nothing to repeat), so its
  search function is embedded as an error.
- pandas NaN produced by DataFrame.str.extract on a non-matching date cell
  is modelled as the string "NaN" (its printed form); re-extracting from it
  again yields NaN, which the model reproduces.
-/

/-! ## Python string primitives (str.strip, str.lower, str.replace) -/

def stripChars (cs : List Char) : List Char :=
  ((cs.dropWhile Char.isWhitespace).reverse.dropWhile Char.isWhitespace).reverse

def pyStrip (s : String) : String :=
  String.mk (stripChars s.toList)

def pyLower (s : String) : String :=
  String.mk (s.toList.map Char.toLower)

def removeAllSubFuel (p : Char) (ps : List Char) : ℕ → List Char → List Char
  | 0, _ => []
  | _, [] => []
  | fuel + 1, c :: cs =>
      if (p :: ps).isPrefixOf (c :: cs) then removeAllSubFuel p ps fuel (cs.drop ps.length)
      else c :: removeAllSubFuel p ps fuel cs

/-- Left-to-right non-overlapping removal of every occurrence of the
pattern p :: ps, i.e. str.replace(pat, "").  Each step consumes at least
one character, so fuel equal to the length is enough. -/
def removeAllSub (p : Char) (ps l : List Char) : List Char :=
  removeAllSubFuel p ps l.length l

/-! ## parse_number (src/pdf_reader.py lines 96-103)

float() is modelled on the decimal grammar `[sign] (digits [. digits] |
. digits) [eE [sign] digits]`; the special forms inf/nan and underscore
separators, which no configured statement produces, are outside the model. -/

def digitsVal (cs : List Char) : ℕ :=
  List.foldl (fun a c => 10 * a + (c.toNat - 48)) 0 cs

def allDigits (cs : List Char) : Bool :=
  cs.all Char.isDigit

def pyExp (cs : List Char) : Option ℤ :=
  match cs with
  | '+' :: ds => if allDigits ds && !ds.isEmpty then some ((digitsVal ds : ℤ)) else none
  | '-' :: ds => if allDigits ds && !ds.isEmpty then some (-(digitsVal ds : ℤ)) else none
  | ds => if allDigits ds && !ds.isEmpty then some ((digitsVal ds : ℤ)) else none

def pyFloatMantissa (cs : List Char) : Option ℚ :=
  let ip := cs.takeWhile (fun c => !(c == '.'))
  let rest := cs.dropWhile (fun c => !(c == '.'))
  match rest with
  | [] => if allDigits ip && !ip.isEmpty then some ((digitsVal ip : ℚ)) else none
  | _ :: fp =>
      if allDigits ip && allDigits fp && (!ip.isEmpty || !fp.isEmpty) then
        some ((digitsVal ip : ℚ) + (digitsVal fp : ℚ) / ((10 : ℚ) ^ fp.length))
      else none

def pyFloatUnsigned (cs : List Char) : Option ℚ :=
  let m := cs.takeWhile (fun c => !(c == 'e') && !(c == 'E'))
  let rest := cs.dropWhile (fun c => !(c == 'e') && !(c == 'E'))
  match rest with
  | [] => pyFloatMantissa m
  | _ :: ex =>
      match pyFloatMantissa m, pyExp ex with
      | some v, some e => some (v * (10 : ℚ) ^ e)
      | _, _ => none

def pyFloat (cs : List Char) : Option ℚ :=
  match cs with
  | '+' :: rest => pyFloatUnsigned rest
  | '-' :: rest => (pyFloatUnsigned rest).map (fun v => -v)
  | _ => pyFloatUnsigned cs

/-- s.replace(",", "").replace("<glyph>", "").strip() from line 99, where
the currency glyph is the three characters U+00E2 U+201A U+00B9 literally
present in the source (bytes c3a2 e2809a c2b9). -/
def cleanAmount (s : String) : List Char :=
  stripChars (removeAllSub 'â' ['‚', '¹'] (removeAllSub ',' [] s.toList))

/-- parse_number (lines 96-103).  The argument is an Option String because the
raw table cells are nullable; `not s` is true for None and for "". The
try/except ValueError is the none branch of the float model. -/
def parse_number (s : Option String) : ℚ :=
  match s with
  | none => 0
  | some str =>
      if pyStrip str = "" then 0
      else
        match pyFloat (cleanAmount str) with
        | some v => v
        | none => 0

def parseS (s : String) : ℚ := parse_number (some s)

/-! ## Data model -/

/-- One row of the output DataFrame, columns
["DATE", "MODE**", "PARTICULARS", "DEPOSITS", "WITHDRAWLS", "BALANCE"]
(line 10).  All cells are stored as strings, exactly as the builder stores
them. -/
structure Txn where
  date : String
  mode : String
  particulars : String
  deposits : String
  withdrawals : String
  balance : String
deriving DecidableEq

def dummyTxn : Txn :=
  { date := "", mode := "", particulars := "", deposits := "", withdrawals := "", balance := "" }

/-- One entry of BANK_CONFIG (lines 14-45).  The regex patterns are carried
as matching functions: dateMatch is re.match (anchored), dateFind is the
first capture of a search (used by the DATE str.extract pass), markerSearch
is re.search with the opening-marker pattern and may raise (re.error for an
invalid pattern), isEmptyCell is membership in the empty_cell value. -/
structure BankProfile where
  bank : String
  dateMatch : String → Bool
  dateFind : String → Option String
  markerSearch : String → Except String Bool
  columnOnMark : Nat
  isEmptyCell : String → Bool

/-! ### Concrete matchers for the three configured patterns -/

def isDate10At (cs : List Char) : Bool :=
  match cs with
  | a :: b :: c :: d :: e :: f :: g :: h :: i :: j :: _ =>
      a.isDigit && b.isDigit && c == '-' && d.isDigit && e.isDigit && f == '-' &&
      g.isDigit && h.isDigit && i.isDigit && j.isDigit
  | _ => false

def isDate8At (cs : List Char) : Bool :=
  match cs with
  | a :: b :: c :: d :: e :: f :: g :: h :: _ =>
      a.isDigit && b.isDigit && c == '-' && d.isDigit && e.isDigit && f == '-' &&
      g.isDigit && h.isDigit
  | _ => false

def findDate10 (cs : List Char) : Option String :=
  match cs with
  | [] => none
  | c :: rest => if isDate10At (c :: rest) then some (String.mk ((c :: rest).take 10))
      else findDate10 rest

def findDate8 (cs : List Char) : Option String :=
  match cs with
  | [] => none
  | c :: rest => if isDate8At (c :: rest) then some (String.mk ((c :: rest).take 8))
      else findDate8 rest

def searchPos (f : List Char → Bool) (cs : List Char) : Bool :=
  match cs with
  | [] => f []
  | c :: rest => f (c :: rest) || searchPos f rest

def containsSub (pat : String) (s : String) : Bool :=
  searchPos (fun cs => pat.toList.isPrefixOf cs) s.toList

/-- One position of the SBI opening-marker pattern r"on\s+\d{2}-\d{2}-\d{2}":
literal "on", at least one whitespace, then the 8-character date shape.  The
whitespace run is consumed greedily; since whitespace and digits are
disjoint this agrees with the regex. -/
def sbiMarkerAt (cs : List Char) : Bool :=
  match cs with
  | 'o' :: 'n' :: c :: rest =>
      c.isWhitespace && isDate8At ((c :: rest).dropWhile Char.isWhitespace)
  | _ => false

/-- HDFC entry of BANK_CONFIG (lines 15-24).  empty_cell is the string "";
Python `x in ""` holds only for x = "".  The start_of_transaction_mark "?"
is an invalid regex: re.search("?", _) raises re.error, embedded as the
error branch. -/
def HDFC : BankProfile :=
  { bank := "HDFC",
    dateMatch := fun s => isDate10At s.toList,
    dateFind := fun s => findDate10 s.toList,
    markerSearch := fun _ => .error "re.error: nothing to repeat",
    columnOnMark := 3,
    isEmptyCell := fun s => s == "" }

/-- ICICI entry of BANK_CONFIG (lines 25-34): marker "B/F" is a literal
pattern, searched as a substring. -/
def ICICI : BankProfile :=
  { bank := "ICICI",
    dateMatch := fun s => isDate10At s.toList,
    dateFind := fun s => findDate10 s.toList,
    markerSearch := fun s => .ok (containsSub "B/F" s),
    columnOnMark := 3,
    isEmptyCell := fun s => s == "" }

/-- SBI entry of BANK_CONFIG (lines 35-44). -/
def SBI : BankProfile :=
  { bank := "SBI",
    dateMatch := fun s => isDate8At s.toList,
    dateFind := fun s => findDate8 s.toList,
    markerSearch := fun s => .ok (searchPos sbiMarkerAt s.toList),
    columnOnMark := 7,
    isEmptyCell := fun s => s == "-" || s == "None" || s == "null" }

/-! ## Transaction builder (extract_tables_from_pdf, lines 126-180) -/

/-- next((c for c in i if c not in [None, ""]), "") from line 150. -/
def firstNonEmptyCell (row : List (Option String)) : String :=
  match row.find? (fun c => match c with | none => false | some s => !(s == "")) with
  | some (some s) => s
  | _ => ""

/-- str(cell) on a nullable cell: None prints as "None". -/
def pyStr (c : Option String) : String :=
  match c with
  | none => "None"
  | some s => s

/-- Line 158: [str(cell).strip() for cell in i if str(cell).strip() not in empty_cell]. -/
def normalizeRow (p : BankProfile) (row : List (Option String)) : List String :=
  (row.map (fun c => pyStrip (pyStr c))).filter (fun s => !(p.isEmptyCell s))

/-- Python negative indexing i[-k]; IndexError when the row is too short. -/
def negCell (row : List (Option String)) (k : Nat) : Except String (Option String) :=
  if k ≤ row.length ∧ k ≠ 0 then .ok (row.getD (row.length - k) none)
  else .error "IndexError"

/-- Line 161: df["DATE"] = df["DATE"].str.extract(date_pattern).  A cell with
no match becomes NaN, printed "NaN". -/
def extractDate (p : BankProfile) (s : String) : String :=
  match p.dateFind s with
  | some d => d
  | none => "NaN"

/-- Condition of line 154: i[-2] != "-" and bank == "SBI" and run_once
(given the already-evaluated i[-2]). -/
def adjCond (p : BankProfile) (runOnce : Bool) (c2 : Option String) : Bool :=
  (!(c2 == some "-")) && (p.bank == "SBI") && runOnce

structure BuilderState where
  df : List Txn
  openingBalance : Option ℚ
  runOnce : Bool
deriving DecidableEq

def initState : BuilderState :=
  { df := [], openingBalance := none, runOnce := true }

/-- Lines 167-170: the emitted row.  Withdrawal branch stores
[i[0], "", i[1], "", i[2], i[3]], deposit branch [i[0], "", i[1], i[2], "", i[3]]. -/
def mkTxn (b : ℚ) (i : List String) : Txn :=
  if b - parseS (i.getD 3 "") > 0 then
    { date := i.getD 0 "", mode := "", particulars := i.getD 1 "",
      deposits := "", withdrawals := i.getD 2 "", balance := i.getD 3 "" }
  else
    { date := i.getD 0 "", mode := "", particulars := i.getD 1 "",
      deposits := i.getD 2 "", withdrawals := "", balance := i.getD 3 "" }

/-- Lines 166-171: classification.  Reading opening_balance when it was
never assigned raises UnboundLocalError; i[3] on a short row raises
IndexError (opening_balance is evaluated first, as in Python). -/
def classifyRow (st : BuilderState) (df1 : List Txn) (i : List String) :
    Except String BuilderState :=
  match st.openingBalance with
  | none => .error "UnboundLocalError"
  | some b =>
      match i.get? 3 with
      | none => .error "IndexError"
      | some _ =>
          .ok { df := df1 ++ [mkTxn b i],
                openingBalance := some (parseS (i.getD 3 "")),
                runOnce := st.runOnce }

/-- Lines 162-170: opening-marker test on the normalized row i against the
state st1 (after the possible SBI adjustment), with the already
date-re-extracted ledger df1. -/
def markerOrClassify (p : BankProfile) (st1 : BuilderState) (df1 : List Txn)
    (i : List String) : Except String BuilderState :=
  if i.length ≤ p.columnOnMark then
    match i.get? 1 with
    | none => .error "IndexError"
    | some c1 =>
        match p.markerSearch c1 with
        | .error e => .error e
        | .ok true =>
            match i.get? 2 with
            | none => .error "IndexError"
            | some c2v =>
                .ok { df := df1, openingBalance := some (parseS c2v),
                      runOnce := st1.runOnce }
        | .ok false => classifyRow st1 df1 i
  else classifyRow st1 df1 i

/-- Lines 158-170 on the state after the SBI adjustment: normalize, run the
DATE re-extraction pass over the accumulated ledger, then the marker test. -/
def stepNormalized (p : BankProfile) (st1 : BuilderState) (row : List (Option String)) :
    Except String BuilderState :=
  markerOrClassify p st1 (st1.df.map (fun t => { t with date := extractDate p t.date }))
    (normalizeRow p row)

/-- Lines 154-170 once i[-2] has been evaluated to c2: the possible SBI
initial-opening-balance adjustment, then the rest of the row pipeline. -/
def stepAfterNeg (p : BankProfile) (st : BuilderState) (row : List (Option String))
    (c2 : Option String) : Except String BuilderState :=
  stepNormalized p
    (if adjCond p st.runOnce c2 then
      { df := st.df, runOnce := false,
        openingBalance :=
          some (parse_number c2 + parse_number (row.getD (row.length - 1) none)) }
    else st) row

/-- One iteration of the row loop (lines 149-171). -/
def step (p : BankProfile) (st : BuilderState) (row : List (Option String)) :
    Except String BuilderState :=
  if p.dateMatch (firstNonEmptyCell row) then
    match negCell row 2 with
    | .error e => .error e
    | .ok c2 => stepAfterNeg p st row c2
  else .ok st

/-- Observable view of a marker search: the Boolean result, or none when
re.search raised. -/
def markerView (p : BankProfile) (s : String) : Option Bool :=
  match p.markerSearch s with
  | .ok b => some b
  | .error _ => none

/-- Observable view of one step: the resulting ledger and running balance,
or none when the step raised. -/
def stepView (p : BankProfile) (st : BuilderState) (row : List (Option String)) :
    Option (List Txn × Option ℚ) :=
  match step p st row with
  | .ok r => some (r.df, r.openingBalance)
  | .error _ => none

/-- The row loop over the selected row group, inside the function-level
try/except: the first uncaught exception aborts the whole loop and the
function returns the DataFrame accumulated so far (lines 138-180). -/
def runRows (p : BankProfile) (st : BuilderState) (rows : List (List (Option String))) :
    BuilderState × Option String :=
  match rows with
  | [] => (st, none)
  | r :: rs =>
      match step p st r with
      | .ok st1 => runRows p st1 rs
      | .error e => (st, some e)

/-! ## Ledger verifier (verify_transactions, lines 204-241) -/

/-- Python round(x, 2): round half to even on the rational model. -/
def roundHalfEven (q : ℚ) : ℤ :=
  let f := q.floor
  let r := q - (f : ℚ)
  if r < 1/2 then f
  else if 1/2 < r then f + 1
  else if f % 2 = 0 then f else f + 1

def pyRound2 (q : ℚ) : ℚ :=
  ((roundHalfEven (q * 100) : ℤ) : ℚ) / 100

/-- The loop of lines 225-227: each expected entry is
round(previous expected + deposit - withdrawal, 2). -/
def expectedFrom (prev : ℚ) (l : List (ℚ × ℚ)) : List ℚ :=
  match l with
  | [] => []
  | dw :: rest =>
      pyRound2 (prev + dw.1 - dw.2) :: expectedFrom (pyRound2 (prev + dw.1 - dw.2)) rest

/-- expected_total: total.copy() with every index above 0 overwritten by the
recurrence; index 0 keeps the recorded balance. -/
def expectedTotals (df : List Txn) : List ℚ :=
  match df with
  | [] => []
  | t0 :: rest =>
      parseS t0.balance ::
        expectedFrom (parseS t0.balance)
          (rest.map (fun t => (parseS t.deposits, parseS t.withdrawals)))

/-- Rows where total != expected_total, with their index, expected and
actual values (lines 229-232). -/
def mismatchesAux (k : ℕ) (es as_ : List ℚ) : List (ℕ × ℚ × ℚ) :=
  match es, as_ with
  | e :: es1, a :: as1 =>
      (if a ≠ e then [(k, e, a)] else []) ++ mismatchesAux (k + 1) es1 as1
  | _, _ => []

/-- verify_transactions, reduced to its observable output: the list of
mismatches (index, expected_total, actual_total).  The source never writes
to the ledger: deposits, withdrawals and total are fresh parsed Series and
mismatches is an explicit copy, so the pass is embedded as a pure function
of the ledger. -/
def verify_transactions (df : List Txn) : List (ℕ × ℚ × ℚ) :=
  mismatchesAux 0 (expectedTotals df) (df.map (fun t => parseS t.balance))

/-! ## Control flow of main (lines 334-366) -/

inductive RunOutcome
  | earlyExit (code : ℕ)
  | proceedToEditAndExport
deriving DecidableEq

/-- The decision spine of main: unknown bank exits with status 0 (line 339);
a verification mismatch exits with status 0 inside verify_transactions
(line 241) before the editor and the export run; otherwise the run
proceeds to editing and export. -/
def mainFlow (bank : String) (df : List Txn) : RunOutcome :=
  if bank = "" then .earlyExit 0
  else if verify_transactions df = [] then .proceedToEditAndExport
  else .earlyExit 0

/-! ## Paginated description editor (edit_descriptions_paginated, lines 286-332) -/

/-- Lines 307-308: a non-blank response overwrites particulars with its
stripped text; a blank response keeps the row. -/
def applyEdit (inp : String) (t : Txn) : Txn :=
  if pyStrip inp = "" then t else { t with particulars := pyStrip inp }

/-- The per-page row loop (lines 304-308): one input() per row of the page;
running out of scripted inputs models EOFError from input(), which aborts
with the edits made so far (third component false). -/
def editRows (df : List Txn) (idx cnt : ℕ) (inputs : List String) :
    List Txn × List String × Bool :=
  match cnt, inputs with
  | 0, _ => (df, inputs, true)
  | _ + 1, [] => (df, [], false)
  | cnt1 + 1, inp :: rest =>
      editRows (df.set idx (applyEdit inp (df.getD idx dummyTxn))) (idx + 1) cnt1 rest

/-- Lines 316-330: navigation on the (already stripped and lowered)
command.  next is clamped at the last page, previous at the first page;
quit is handled by the caller; any other input re-displays the page. -/
def nextPage (nv : String) (page tp : ℤ) : ℤ :=
  if nv = "n" then (if page < tp - 1 then page + 1 else page)
  else if nv = "p" then (if 0 < page then page - 1 else page)
  else page

/-- The while loop (lines 297-330), driven by the scripted inputs; fuel
only guards termination and is instantiated above the input count, which
bounds the number of iterations because every iteration consumes at least
the navigation input. -/
def edLoop (ps : ℕ) (tp : ℤ) (nrows fuel : ℕ) (df : List Txn) (page : ℤ)
    (inputs : List String) : List Txn × Bool :=
  match fuel with
  | 0 => (df, false)
  | fuel1 + 1 =>
      match editRows df (page * (ps : ℤ)).toNat
          (min ((page * (ps : ℤ)).toNat + ps) nrows - (page * (ps : ℤ)).toNat) inputs with
      | (df1, _, false) => (df1, false)
      | (df1, rest, true) =>
          match rest with
          | [] => (df1, false)
          | nav :: rest2 =>
              if pyLower (pyStrip nav) = "q" then (df1, true)
              else edLoop ps tp nrows fuel1 df1 (nextPage (pyLower (pyStrip nav)) page tp) rest2

/-- edit_descriptions_paginated.  page_size = 0 makes math.ceil(n/0) raise
ZeroDivisionError before any edit (line 294), returning the ledger
untouched; otherwise total_pages = ceil(n / page_size) and the loop runs
from page 0. -/
def edit_descriptions_paginated (df : List Txn) (ps : ℕ) (inputs : List String) :
    List Txn × Bool :=
  if ps = 0 then (df, false)
  else edLoop ps (((df.length + ps - 1) / ps : ℕ) : ℤ) df.length (inputs.length + 1) df 0 inputs

/-- Projection forgetting the one field the editor may write. -/
def eraseParticulars (t : Txn) : Txn :=
  { t with particulars := "" }

/-! ## Concrete inputs used by several claims -/

def rowBF1000 : List (Option String) := [some "01-01-2024", some "B/F", some "1000.00"]

def rowBF500 : List (Option String) := [some "03-01-2024", some "B/F", some "500.00"]

def rowBF100 : List (Option String) := [some "01-01-2024", some "B/F", some "100.00"]

def rowRent800 : List (Option String) := [some "02-01-2024", some "Rent", some "200.00", some "800.00"]

def rowRent900 : List (Option String) := [some "02-01-2024", some "Rent", some "200.00", some "900.00"]

def rowNullRent800 : List (Option String) :=
  [none, some "02-01-2024", some "Rent", some "200.00", some "800.00"]

def rowGift130 : List (Option String) := [some "02-01-2024", some "Gift", some "30.00", some "130.00"]

def giftTxn : Txn :=
  { date := "02-01-2024", mode := "", particulars := "Gift",
    deposits := "30.00", withdrawals := "", balance := "130.00" }

def noneTxn : Txn :=
  { date := "None", mode := "", particulars := "02-01-2024",
    deposits := "", withdrawals := "Rent", balance := "200.00" }

def rent900Txn : Txn :=
  { date := "02-01-2024", mode := "", particulars := "Rent",
    deposits := "", withdrawals := "200.00", balance := "900.00" }

def C3ledger : List Txn :=
  [{ dummyTxn with particulars := "a", balance := "100.00" },
   { dummyTxn with particulars := "b", deposits := "50.00", balance := "999.00" }]

/-- C1: counterexample to classification by sign of B minus the parsed
amount A.  After the opening row establishes B = 100, the row with amount
A = 30 and balance cell 130 has B - A = 70 > 0, so the claim predicts
withdrawal == A and deposit == 0; the builder instead compares B with the
parsed balance cell (100 - 130 ≤ 0) and emits a deposit of 30. -/
theorem C1_counterexample :
    (runRows ICICI initState [rowBF100]).1.openingBalance = some 100 ∧
    (runRows ICICI initState [rowBF100, rowGift130]).1.df = [giftTxn] ∧
    (100 : ℚ) - parseS "30.00" > 0 ∧
    ¬ (parseS giftTxn.withdrawals = parseS "30.00" ∧ parseS giftTxn.deposits = 0) := by
  decide

/-- C5: with qualifying transaction rows but no opening-marker row, the
builder does not fall back to an implicit zero balance: reading the unbound
opening_balance raises UnboundLocalError, the blanket except aborts the
whole extraction loop, the ledger stays empty, and the remaining rows
(here a following opening row) are never processed. -/
theorem C5_unbound_balance_bug :
    runRows ICICI initState [rowRent800, rowBF1000] = (initState, some "UnboundLocalError") := by
  decide

/-- C6: counterexample to the claim that an opening-marker row leaves the
ledger unchanged.  The marker row rowBF500 satisfies the threshold and
marker conditions and emits no Transaction, but the per-row DATE
str.extract pass it runs rewrites the previously stored date "None" (from a
null first cell) to NaN, so the ledger is changed by that row. -/
theorem C6_counterexample :
    (runRows ICICI initState [rowBF1000, rowNullRent800]).1.df = [noneTxn] ∧
    stepView ICICI (runRows ICICI initState [rowBF1000, rowNullRent800]).1 rowBF500 =
      some ([{ noneTxn with date := "NaN" }], some 500) ∧
    (normalizeRow ICICI rowBF500).length ≤ ICICI.columnOnMark ∧
    markerView ICICI ((normalizeRow ICICI rowBF500).getD 1 "") = some true ∧
    ({ noneTxn with date := "NaN" } : Txn) ≠ noneTxn := by
  decide

/-- C8: counterexample to the spec's second worked example.  On the input
with recorded balance 900.00, the ledger holds a single Transaction, and a
one-row ledger can never mismatch: index 0 is taken as ground truth, so the
verifier reports no mismatch at all, not one mismatch at index 0. -/
theorem C8_counterexample :
    (runRows ICICI initState [rowBF1000, rowRent900]).1.df = [rent900Txn] ∧
    verify_transactions [rent900Txn] = [] := by
  decide

/-- C8 amended: on the worked input with final balance 900.00, the builder
emits the single Transaction with withdrawal 200, deposit 0 and recorded
balance 900.00, and the verifier reports zero mismatches (consistent),
because the index-0 balance is ground truth and never re-derived. -/
theorem C8_amended :
    runRows ICICI initState [rowBF1000, rowRent900] =
      ({ df := [rent900Txn], openingBalance := some 900, runOnce := true }, none) ∧
    parseS rent900Txn.withdrawals = 200 ∧ parseS rent900Txn.deposits = 0 ∧
    parseS rent900Txn.balance = 900 ∧
    verify_transactions [rent900Txn] = [] := by
  decide

/-- C3: counterexample to the non-zero exit status.  On a ledger with a
mismatch the run does hard-stop before editing and export, but via exit(0):
the termination status is 0, not a non-zero error code. -/
theorem C3_counterexample :
    verify_transactions C3ledger = [(1, 150, 999)] ∧
    mainFlow "ICICI" C3ledger = RunOutcome.earlyExit 0 := by
  decide

/-- C3 amended: a verification mismatch terminates the run before editing
and export, but with exit status 0 — the same non-error status used when
the bank cannot be detected. -/
theorem C3_amended (bank : String) (df : List Txn)
    (hbank : bank ≠ "") (hm : verify_transactions df ≠ []) :
    mainFlow bank df = RunOutcome.earlyExit 0 ∧
    mainFlow "" df = RunOutcome.earlyExit 0 := by
  unfold mainFlow
  rw [if_neg hbank, if_neg hm, if_pos rfl]
  exact ⟨rfl, rfl⟩

theorem C3_witness :
    mainFlow "ICICI" C3ledger = RunOutcome.earlyExit 0 ∧
    mainFlow "" C3ledger = RunOutcome.earlyExit 0 :=
  C3_amended "ICICI" C3ledger (by decide) (by decide)

/-! ## Generic list helpers -/

theorem list_get?_eq_getD {α : Type} (l : List α) (d : α) (k : ℕ) (h : k < l.length) :
    l.get? k = some (l.getD k d) := by
  induction l generalizing k with
  | nil => simp at h
  | cons a t ih =>
      cases k with
      | zero => rfl
      | succ n => simpa using ih n (by simpa using h)

theorem normalizeRow_length_le (p : BankProfile) (row : List (Option String)) :
    (normalizeRow p row).length ≤ row.length := by
  unfold normalizeRow
  exact le_trans (List.length_filter_le _ _) (le_of_eq (List.length_map _ _))

theorem step_eq_stepAfterNeg (p : BankProfile) (st : BuilderState)
    (row : List (Option String))
    (hdate : p.dateMatch (firstNonEmptyCell row) = true) (hrow : 2 ≤ row.length) :
    step p st row = stepAfterNeg p st row (row.getD (row.length - 2) none) := by
  have h2 : negCell row 2 = .ok (row.getD (row.length - 2) none) := by
    unfold negCell
    rw [if_pos ⟨hrow, by omega⟩]
  unfold step
  rw [if_pos hdate, h2]

theorem stepAfterNeg_of_noAdj (p : BankProfile) (st : BuilderState)
    (row : List (Option String)) (c2 : Option String)
    (hadj : adjCond p st.runOnce c2 = false) :
    stepAfterNeg p st row c2 = stepNormalized p st row := by
  unfold stepAfterNeg
  rw [hadj]
  rfl

theorem classifyRow_of_some (st1 : BuilderState) (df1 : List Txn) (i : List String)
    (B : ℚ) (hB : st1.openingBalance = some B) (hlen : 4 ≤ i.length) :
    classifyRow st1 df1 i =
      .ok { df := df1 ++ [mkTxn B i], openingBalance := some (parseS (i.getD 3 "")),
            runOnce := st1.runOnce } := by
  unfold classifyRow
  rw [hB, list_get?_eq_getD i "" 3 (by omega)]

theorem markerOrClassify_classify (p : BankProfile) (st1 : BuilderState) (df1 : List Txn)
    (i : List String) (hlen : 2 ≤ i.length)
    (hmark : i.length ≤ p.columnOnMark → p.markerSearch (i.getD 1 "") = .ok false) :
    markerOrClassify p st1 df1 i = classifyRow st1 df1 i := by
  unfold markerOrClassify
  by_cases hle : i.length ≤ p.columnOnMark
  · rw [if_pos hle, list_get?_eq_getD i "" 1 (by omega)]
    simp only [hmark hle]
  · rw [if_neg hle]

/-- C1 amended: on a qualifying non-opening-marker row processed with an
established running balance B (and on which the SBI first-row adjustment
does not fire), the builder classifies by the sign of B minus the parsed
balance cell B' = parse(i[3]) — the balance delta — not B minus the parsed
amount: when B - B' > 0 the amount cell i[2] is stored in the withdrawal
field and the deposit field is blank (parses to 0), otherwise i[2] is
stored in the deposit field and the withdrawal field is blank; the emitted
Transaction's balance is the row's balance cell i[3], whose parsed value
becomes the new running balance. -/
theorem C1_amended (p : BankProfile) (st : BuilderState) (row : List (Option String)) (B : ℚ)
    (hB : st.openingBalance = some B)
    (hdate : p.dateMatch (firstNonEmptyCell row) = true)
    (hlen : 4 ≤ (normalizeRow p row).length)
    (hadj : adjCond p st.runOnce (row.getD (row.length - 2) none) = false)
    (hmark : (normalizeRow p row).length ≤ p.columnOnMark →
      p.markerSearch ((normalizeRow p row).getD 1 "") = .ok false) :
    step p st row = .ok
      { df := st.df.map (fun t => { t with date := extractDate p t.date }) ++
              [mkTxn B (normalizeRow p row)],
        openingBalance := some (parseS ((normalizeRow p row).getD 3 "")),
        runOnce := st.runOnce } ∧
    ((B - parseS ((normalizeRow p row).getD 3 "") > 0) →
      (mkTxn B (normalizeRow p row)).withdrawals = (normalizeRow p row).getD 2 "" ∧
      parseS (mkTxn B (normalizeRow p row)).deposits = 0) ∧
    (¬ (B - parseS ((normalizeRow p row).getD 3 "") > 0) →
      (mkTxn B (normalizeRow p row)).deposits = (normalizeRow p row).getD 2 "" ∧
      parseS (mkTxn B (normalizeRow p row)).withdrawals = 0) ∧
    (mkTxn B (normalizeRow p row)).balance = (normalizeRow p row).getD 3 "" := by
  have hrow : 2 ≤ row.length :=
    le_trans (le_trans (by omega) hlen) (normalizeRow_length_le p row)
  refine ⟨?_, ?_, ?_, ?_⟩
  · rw [step_eq_stepAfterNeg p st row hdate hrow, stepAfterNeg_of_noAdj p st row _ hadj]
    unfold stepNormalized
    rw [markerOrClassify_classify p st _ _ (by omega) hmark,
      classifyRow_of_some st _ _ B hB hlen]
  · intro hpos
    unfold mkTxn
    rw [if_pos hpos]
    refine ⟨rfl, ?_⟩
    show parseS "" = 0
    decide
  · intro hneg
    unfold mkTxn
    rw [if_neg hneg]
    refine ⟨rfl, ?_⟩
    show parseS "" = 0
    decide
  · unfold mkTxn
    by_cases hpos : B - parseS ((normalizeRow p row).getD 3 "") > 0
    · rw [if_pos hpos]
    · rw [if_neg hpos]

def C1state : BuilderState := { df := [], openingBalance := some 1000, runOnce := true }

theorem C1_witness :
    step ICICI C1state rowRent900 = .ok
      { df := C1state.df.map (fun t => { t with date := extractDate ICICI t.date }) ++
              [mkTxn 1000 (normalizeRow ICICI rowRent900)],
        openingBalance := some (parseS ((normalizeRow ICICI rowRent900).getD 3 "")),
        runOnce := C1state.runOnce } ∧
    ((1000 - parseS ((normalizeRow ICICI rowRent900).getD 3 "") > 0) →
      (mkTxn 1000 (normalizeRow ICICI rowRent900)).withdrawals =
        (normalizeRow ICICI rowRent900).getD 2 "" ∧
      parseS (mkTxn 1000 (normalizeRow ICICI rowRent900)).deposits = 0) ∧
    (¬ (1000 - parseS ((normalizeRow ICICI rowRent900).getD 3 "") > 0) →
      (mkTxn 1000 (normalizeRow ICICI rowRent900)).deposits =
        (normalizeRow ICICI rowRent900).getD 2 "" ∧
      parseS (mkTxn 1000 (normalizeRow ICICI rowRent900)).withdrawals = 0) ∧
    (mkTxn 1000 (normalizeRow ICICI rowRent900)).balance =
      (normalizeRow ICICI rowRent900).getD 3 "" :=
  C1_amended ICICI C1state rowRent900 1000 rfl (by decide) (by decide) (by decide)
    (fun h => absurd h (by decide))

theorem markerOrClassify_marker (p : BankProfile) (st1 : BuilderState) (df1 : List Txn)
    (i : List String) (hlen : 3 ≤ i.length) (hle : i.length ≤ p.columnOnMark)
    (hmark : p.markerSearch (i.getD 1 "") = .ok true) :
    markerOrClassify p st1 df1 i =
      .ok { df := df1, openingBalance := some (parseS (i.getD 2 "")),
            runOnce := st1.runOnce } := by
  unfold markerOrClassify
  rw [if_pos hle, list_get?_eq_getD i "" 1 (by omega)]
  simp only [hmark]
  rw [list_get?_eq_getD i "" 2 (by omega)]

/-- C6 amended: a normalized row under the column-count threshold whose
second cell matches the opening-marker pattern (and that has a third cell)
emits no Transaction and sets the running balance to the parsed third cell;
the ledger keeps its rows (same length, no append), except that the per-row
DATE re-extraction pass the builder runs on every qualifying row may
rewrite previously stored date strings (to the extracted capture, or NaN
when nothing matches). -/
theorem C6_amended (p : BankProfile) (st : BuilderState) (row : List (Option String))
    (hdate : p.dateMatch (firstNonEmptyCell row) = true)
    (hlen : 3 ≤ (normalizeRow p row).length)
    (hle : (normalizeRow p row).length ≤ p.columnOnMark)
    (hmark : p.markerSearch ((normalizeRow p row).getD 1 "") = .ok true) :
    ∃ ro, step p st row = .ok
      { df := st.df.map (fun t => { t with date := extractDate p t.date }),
        openingBalance := some (parseS ((normalizeRow p row).getD 2 "")),
        runOnce := ro } ∧
      (st.df.map (fun t => { t with date := extractDate p t.date })).length =
        st.df.length := by
  have hrow : 2 ≤ row.length :=
    le_trans (le_trans (by omega) hlen) (normalizeRow_length_le p row)
  rw [step_eq_stepAfterNeg p st row hdate hrow]
  unfold stepAfterNeg
  by_cases hA : adjCond p st.runOnce (row.getD (row.length - 2) none)
  · rw [if_pos hA]
    refine ⟨false, ?_, List.length_map _ _⟩
    unfold stepNormalized
    rw [markerOrClassify_marker p _ _ _ hlen hle hmark]
  · rw [if_neg hA]
    refine ⟨st.runOnce, ?_, List.length_map _ _⟩
    unfold stepNormalized
    rw [markerOrClassify_marker p _ _ _ hlen hle hmark]

theorem C6_witness :
    ∃ ro, step ICICI initState rowBF500 = .ok
      { df := initState.df.map (fun t => { t with date := extractDate ICICI t.date }),
        openingBalance := some (parseS ((normalizeRow ICICI rowBF500).getD 2 "")),
        runOnce := ro } ∧
      (initState.df.map (fun t => { t with date := extractDate ICICI t.date })).length =
        initState.df.length :=
  C6_amended ICICI initState rowBF500 (by decide) (by decide) (by decide) (by rfl)

/-! ## C4: the mutual-exclusivity invariant of deposit and withdrawal -/

theorem classifyRow_pres (st1 : BuilderState) (df1 : List Txn) (i : List String)
    (r : BuilderState) (h : classifyRow st1 df1 i = .ok r)
    (hdf : ∀ t ∈ df1, t.deposits = "" ∨ t.withdrawals = "") :
    ∀ t ∈ r.df, t.deposits = "" ∨ t.withdrawals = "" := by
  unfold classifyRow at h
  cases hob : st1.openingBalance with
  | none => rw [hob] at h; exact absurd h (by simp)
  | some b =>
      rw [hob] at h
      cases h3 : i.get? 3 with
      | none => rw [h3] at h; exact absurd h (by simp)
      | some v =>
          rw [h3] at h
          simp only [Except.ok.injEq] at h
          subst h
          intro t ht
          rw [List.mem_append] at ht
          rcases ht with h1 | h2
          · exact hdf t h1
          · rw [List.mem_singleton] at h2
            subst h2
            unfold mkTxn
            by_cases hc : b - parseS (i.getD 3 "") > 0
            · rw [if_pos hc]; exact Or.inl rfl
            · rw [if_neg hc]; exact Or.inr rfl

theorem map_extract_pres (p : BankProfile) (df : List Txn)
    (hdf : ∀ t ∈ df, t.deposits = "" ∨ t.withdrawals = "") :
    ∀ t ∈ df.map (fun t => { t with date := extractDate p t.date }),
      t.deposits = "" ∨ t.withdrawals = "" := by
  intro t ht
  rw [List.mem_map] at ht
  obtain ⟨t0, ht0, rfl⟩ := ht
  exact hdf t0 ht0

theorem markerOrClassify_pres (p : BankProfile) (st1 : BuilderState) (df1 : List Txn)
    (i : List String) (r : BuilderState) (h : markerOrClassify p st1 df1 i = .ok r)
    (hdf : ∀ t ∈ df1, t.deposits = "" ∨ t.withdrawals = "") :
    ∀ t ∈ r.df, t.deposits = "" ∨ t.withdrawals = "" := by
  unfold markerOrClassify at h
  by_cases hle : i.length ≤ p.columnOnMark
  · rw [if_pos hle] at h
    cases h1 : i.get? 1 with
    | none => simp only [h1] at h; exact absurd h (by simp)
    | some c1 =>
        simp only [h1] at h
        cases hm : p.markerSearch c1 with
        | error e => simp only [hm] at h; exact absurd h (by simp)
        | ok b =>
            simp only [hm] at h
            cases b with
            | true =>
                cases h2 : i.get? 2 with
                | none => simp only [h2] at h; exact absurd h (by simp)
                | some c2v =>
                    simp only [h2, Except.ok.injEq] at h
                    subst h
                    exact hdf
            | false => exact classifyRow_pres st1 df1 i r h hdf
  · rw [if_neg hle] at h
    exact classifyRow_pres st1 df1 i r h hdf

theorem step_pres (p : BankProfile) (st : BuilderState) (row : List (Option String))
    (r : BuilderState) (h : step p st row = .ok r)
    (hdf : ∀ t ∈ st.df, t.deposits = "" ∨ t.withdrawals = "") :
    ∀ t ∈ r.df, t.deposits = "" ∨ t.withdrawals = "" := by
  unfold step at h
  by_cases hd : p.dateMatch (firstNonEmptyCell row) = true
  · rw [if_pos hd] at h
    cases hn : negCell row 2 with
    | error e => simp only [hn] at h; exact absurd h (by simp)
    | ok c2 =>
        simp only [hn] at h
        unfold stepAfterNeg stepNormalized at h
        by_cases hA : adjCond p st.runOnce c2
        · rw [if_pos hA] at h
          exact markerOrClassify_pres p _ _ _ r h (map_extract_pres p st.df hdf)
        · rw [if_neg hA] at h
          exact markerOrClassify_pres p _ _ _ r h (map_extract_pres p st.df hdf)
  · rw [if_neg hd] at h
    simp only [Except.ok.injEq] at h
    subst h
    exact hdf

theorem runRows_pres (p : BankProfile) (rows : List (List (Option String))) :
    ∀ (st : BuilderState), (∀ t ∈ st.df, t.deposits = "" ∨ t.withdrawals = "") →
    ∀ t ∈ (runRows p st rows).1.df, t.deposits = "" ∨ t.withdrawals = "" := by
  induction rows with
  | nil => intro st h; exact h
  | cons r rs ih =>
      intro st h
      unfold runRows
      cases hs : step p st r with
      | ok st1 => simp only [hs]; exact ih st1 (step_pres p st r st1 hs h)
      | error e => simp only [hs]; exact h

def rowFee100 : List (Option String) := [some "02-01-2024", some "Fee", some "0.00", some "100.00"]

def feeTxn : Txn :=
  { date := "02-01-2024", mode := "", particulars := "Fee",
    deposits := "0.00", withdrawals := "", balance := "100.00" }

/-- C4: counterexample to the "exactly one of the two amount fields is
non-zero" part of the claim.  A qualifying row whose amount cell parses to
0 ("0.00") is appended with both parsed amounts equal to 0, so neither
field is non-zero. -/
theorem C4_counterexample :
    (runRows ICICI initState [rowBF100, rowFee100]).1.df = [feeTxn] ∧
    parseS feeTxn.deposits = 0 ∧ parseS feeTxn.withdrawals = 0 ∧
    ¬ ((parseS feeTxn.deposits ≠ 0 ∧ parseS feeTxn.withdrawals = 0) ∨
       (parseS feeTxn.withdrawals ≠ 0 ∧ parseS feeTxn.deposits = 0)) := by
  decide

/-- C4 amended: every Transaction the builder ever appends to the ledger
has a blank deposit cell or a blank withdrawal cell, so at most one of the
two parsed amounts is non-zero — deposit == 0 or withdrawal == 0, never
both non-zero (exactly one is non-zero precisely when the amount cell
parses to a non-zero value).  This holds for every profile and every row
stream, including runs aborted by an exception. -/
theorem C4_mutual_exclusivity (p : BankProfile) (rows : List (List (Option String)))
    (t : Txn) (ht : t ∈ (runRows p initState rows).1.df) :
    parseS t.deposits = 0 ∨ parseS t.withdrawals = 0 := by
  have h := runRows_pres p rows initState (by intro t ht; simp [initState] at ht) t ht
  rcases h with h | h
  · exact Or.inl (by rw [h]; decide)
  · exact Or.inr (by rw [h]; decide)

theorem C4_witness :
    parseS rent900Txn.deposits = 0 ∨ parseS rent900Txn.withdrawals = 0 :=
  C4_mutual_exclusivity ICICI [rowBF1000, rowRent900] rent900Txn (by decide)

/-- C7: numeric parsing is total and never raises.  In the embedding
parse_number is a plain function into ℚ (the try/except around float() is
the none branch of the float model), and: null input yields 0, blank or
all-whitespace input yields 0, and any input whose cleaned form (thousands
separators and the currency glyph stripped) is not a parsable number yields
0. -/
theorem C7_parse_number_total (s : Option String) :
    (s = none → parse_number s = 0) ∧
    (∀ str, s = some str → pyStrip str = "" → parse_number s = 0) ∧
    (∀ str, s = some str → pyFloat (cleanAmount str) = none → parse_number s = 0) ∧
    ∃ q, parse_number s = q := by
  refine ⟨?_, ?_, ?_, ⟨parse_number s, rfl⟩⟩
  · intro hs; subst hs; rfl
  · intro str hs hb
    subst hs
    simp only [parse_number]
    rw [if_pos hb]
  · intro str hs hf
    subst hs
    simp only [parse_number]
    by_cases hb : pyStrip str = ""
    · rw [if_pos hb]
    · rw [if_neg hb]
      simp only [hf]

theorem C7_witness :
    parse_number none = 0 ∧ parse_number (some "   ") = 0 ∧
    parse_number (some "12x") = 0 ∧ ∃ q, parse_number (some "1,234.56") = q :=
  ⟨(C7_parse_number_total none).1 rfl,
   (C7_parse_number_total (some "   ")).2.1 "   " rfl (by decide),
   (C7_parse_number_total (some "12x")).2.2.1 "12x" rfl (by decide),
   (C7_parse_number_total (some "1,234.56")).2.2.2⟩

/-- C10: during normalization every cell goes through str() before
stripping, so a null cell becomes the literal text "None"; the HDFC and
ICICI profiles do not list "None" among their blank-equivalent tokens, so a
null cell in a qualifying row survives normalization as the string "None"
and can end up inside an emitted Transaction — in the concrete run below,
as the DATE field of the emitted row. -/
theorem C10_none_survives (row : List (Option String)) (k : ℕ)
    (h : row.get? k = some none) :
    pyStrip (pyStr none) = "None" ∧
    HDFC.isEmptyCell "None" = false ∧
    ICICI.isEmptyCell "None" = false ∧
    "None" ∈ normalizeRow HDFC row ∧
    "None" ∈ normalizeRow ICICI row ∧
    (runRows ICICI initState [rowBF1000, rowNullRent800]).1.df.map (fun t => t.date) =
      ["None"] := by
  have hmem : (none : Option String) ∈ row := List.get?_mem h
  refine ⟨by decide, by decide, by decide, ?_, ?_, by decide⟩
  · unfold normalizeRow
    exact List.mem_filter.mpr ⟨List.mem_map.mpr ⟨none, hmem, by decide⟩, by decide⟩
  · unfold normalizeRow
    exact List.mem_filter.mpr ⟨List.mem_map.mpr ⟨none, hmem, by decide⟩, by decide⟩

theorem C10_witness :
    pyStrip (pyStr none) = "None" ∧
    HDFC.isEmptyCell "None" = false ∧
    ICICI.isEmptyCell "None" = false ∧
    "None" ∈ normalizeRow HDFC [some "x", none] ∧
    "None" ∈ normalizeRow ICICI [some "x", none] ∧
    (runRows ICICI initState [rowBF1000, rowNullRent800]).1.df.map (fun t => t.date) =
      ["None"] :=
  C10_none_survives [some "x", none] 1 (by decide)

/-! ## C9: editor frame property and navigation clamps -/

theorem erase_applyEdit (inp : String) (t : Txn) :
    eraseParticulars (applyEdit inp t) = eraseParticulars t := by
  unfold applyEdit eraseParticulars
  by_cases hb : pyStrip inp = ""
  · rw [if_pos hb]
  · rw [if_neg hb]

theorem map_erase_set (df : List Txn) (idx : ℕ) (inp : String) :
    (df.set idx (applyEdit inp (df.getD idx dummyTxn))).map eraseParticulars =
      df.map eraseParticulars := by
  induction df generalizing idx with
  | nil => rfl
  | cons a l ih =>
      cases idx with
      | zero =>
          simp only [List.getD_cons_zero, List.set_cons_zero, List.map_cons]
          rw [erase_applyEdit]
      | succ n =>
          simp only [List.getD_cons_succ, List.set_cons_succ, List.map_cons]
          rw [ih n]

theorem editRows_frame (cnt : ℕ) : ∀ (df : List Txn) (idx : ℕ) (inputs : List String),
    ((editRows df idx cnt inputs).1).map eraseParticulars = df.map eraseParticulars := by
  induction cnt with
  | zero => intro df idx inputs; rfl
  | succ n ih =>
      intro df idx inputs
      cases inputs with
      | nil => rfl
      | cons inp rest =>
          unfold editRows
          rw [ih _ _ rest, map_erase_set]

theorem edLoop_frame (ps : ℕ) (tp : ℤ) (nrows : ℕ) (fuel : ℕ) :
    ∀ (df : List Txn) (page : ℤ) (inputs : List String),
    ((edLoop ps tp nrows fuel df page inputs).1).map eraseParticulars =
      df.map eraseParticulars := by
  induction fuel with
  | zero => intro df page inputs; rfl
  | succ n ih =>
      intro df page inputs
      show ((match editRows df (page * (ps : ℤ)).toNat
          (min ((page * (ps : ℤ)).toNat + ps) nrows - (page * (ps : ℤ)).toNat) inputs with
        | (df1, _, false) => (df1, false)
        | (df1, rest, true) =>
            match rest with
            | [] => (df1, false)
            | nav :: rest2 =>
                if pyLower (pyStrip nav) = "q" then (df1, true)
                else edLoop ps tp nrows n df1
                  (nextPage (pyLower (pyStrip nav)) page tp) rest2 : List Txn × Bool)).1.map
          eraseParticulars = df.map eraseParticulars
      rcases hER : editRows df (page * (ps : ℤ)).toNat
          (min ((page * (ps : ℤ)).toNat + ps) nrows - (page * (ps : ℤ)).toNat) inputs with
        ⟨df1, rest, flag⟩
      have hdf1 : df1.map eraseParticulars = df.map eraseParticulars := by
        have := editRows_frame
          (min ((page * (ps : ℤ)).toNat + ps) nrows - (page * (ps : ℤ)).toNat)
          df (page * (ps : ℤ)).toNat inputs
        rw [hER] at this
        exact this
      cases flag with
      | false => exact hdf1
      | true =>
          cases rest with
          | nil => exact hdf1
          | cons nav rest2 =>
              dsimp only
              by_cases hq : pyLower (pyStrip nav) = "q"
              · rw [if_pos hq]; exact hdf1
              · rw [if_neg hq]
                rw [ih df1 (nextPage (pyLower (pyStrip nav)) page tp) rest2]
                exact hdf1

/-- C9: (frame) after any scripted sequence of editor inputs — whether the
loop quits, runs out of input (EOFError), or aborts on page size 0
(ZeroDivisionError) — every Transaction of the resulting ledger agrees with
the original on every field except particulars; (blank keeps) an empty or
all-whitespace response leaves the row unchanged; (clamp) the next/previous
navigation keeps the page index within [0, total_pages - 1] (and at 0 when
there are no pages), re-displaying instead of erroring. -/
theorem C9_editor :
    (∀ (df : List Txn) (ps : ℕ) (inputs : List String),
      ((edit_descriptions_paginated df ps inputs).1).map eraseParticulars =
        df.map eraseParticulars) ∧
    (∀ (inp : String) (t : Txn), pyStrip inp = "" → applyEdit inp t = t) ∧
    (∀ (nv : String) (page tp : ℤ), 0 ≤ page → page ≤ max (tp - 1) 0 →
      0 ≤ nextPage nv page tp ∧ nextPage nv page tp ≤ max (tp - 1) 0) := by
  refine ⟨?_, ?_, ?_⟩
  · intro df ps inputs
    unfold edit_descriptions_paginated
    by_cases hps : ps = 0
    · rw [if_pos hps]
    · rw [if_neg hps]
      exact edLoop_frame ps _ df.length (inputs.length + 1) df 0 inputs
  · intro inp t hb
    unfold applyEdit
    rw [if_pos hb]
  · intro nv page tp h0 hmax
    unfold nextPage
    by_cases hn : nv = "n"
    · rw [if_pos hn]
      by_cases hlt : page < tp - 1
      · rw [if_pos hlt]
        exact ⟨by omega, le_trans (by omega) (le_max_left (tp - 1) 0)⟩
      · rw [if_neg hlt]; exact ⟨h0, hmax⟩
    · rw [if_neg hn]
      by_cases hp : nv = "p"
      · rw [if_pos hp]
        by_cases hpos : 0 < page
        · rw [if_pos hpos]
          exact ⟨by omega, le_trans (by omega : page - 1 ≤ page) hmax⟩
        · rw [if_neg hpos]; exact ⟨h0, hmax⟩
      · rw [if_neg hp]; exact ⟨h0, hmax⟩

def edDemo : List Txn :=
  [{ dummyTxn with particulars := "one" }, { dummyTxn with particulars := "two" }]

theorem C9_witness :
    ((edit_descriptions_paginated edDemo 1 ["x", "q"]).1).map eraseParticulars =
      edDemo.map eraseParticulars ∧
    applyEdit "  " dummyTxn = dummyTxn ∧
    (0 ≤ nextPage "n" 0 2 ∧ nextPage "n" 0 2 ≤ max (2 - 1) 0) :=
  ⟨C9_editor.1 edDemo 1 ["x", "q"],
   C9_editor.2.1 "  " dummyTxn (by decide),
   C9_editor.2.2 "n" 0 2 (by omega) (le_max_right (2 - 1) 0)⟩

/-! ## C2: verifier lemmas -/

theorem expectedFrom_length (prev : ℚ) (l : List (ℚ × ℚ)) :
    (expectedFrom prev l).length = l.length := by
  induction l generalizing prev with
  | nil => rfl
  | cons dw rest ih => simp [expectedFrom, ih]

theorem expectedTotals_length (df : List Txn) :
    (expectedTotals df).length = df.length := by
  cases df with
  | nil => rfl
  | cons t0 rest => simp [expectedTotals, expectedFrom_length]

theorem map_getD_lt {α β : Type} (f : α → β) (l : List α) (d : α) (e : β) (j : ℕ)
    (hj : j < l.length) : (l.map f).getD j e = f (l.getD j d) := by
  induction l generalizing j with
  | nil => simp at hj
  | cons a t ih =>
      cases j with
      | zero => rfl
      | succ n => simpa using ih n (by simpa using hj)

theorem expectedFrom_getD (l : List (ℚ × ℚ)) : ∀ (prev : ℚ) (j : ℕ), j < l.length →
    (expectedFrom prev l).getD j 0 =
      pyRound2 ((prev :: expectedFrom prev l).getD j 0 + (l.getD j (0, 0)).1 -
        (l.getD j (0, 0)).2) := by
  induction l with
  | nil => intro prev j hj; simp at hj
  | cons dw rest ih =>
      intro prev j hj
      cases j with
      | zero => rfl
      | succ n =>
          have hn : n < rest.length := by simpa using hj
          simpa [expectedFrom] using ih (pyRound2 (prev + dw.1 - dw.2)) n hn

theorem mem_mismatchesAux (es : List ℚ) : ∀ (k : ℕ) (as_ : List ℚ) (m : ℕ × ℚ × ℚ),
    m ∈ mismatchesAux k es as_ ↔
      ∃ j, j < es.length ∧ j < as_.length ∧
        m = (k + j, es.getD j 0, as_.getD j 0) ∧ as_.getD j 0 ≠ es.getD j 0 := by
  induction es with
  | nil =>
      intro k as_ m
      constructor
      · intro h
        simp [mismatchesAux] at h
      · rintro ⟨j, hj, -⟩
        simp at hj
  | cons e es1 ih =>
      intro k as_ m
      cases as_ with
      | nil =>
          constructor
          · intro h
            simp [mismatchesAux] at h
          · rintro ⟨j, -, hj2, -⟩
            simp at hj2
      | cons a as1 =>
          unfold mismatchesAux
          rw [List.mem_append]
          constructor
          · rintro (h1 | h2)
            · by_cases hne : a ≠ e
              · rw [if_pos hne, List.mem_singleton] at h1
                refine ⟨0, by simp, by simp, ?_, by simpa using hne⟩
                simpa using h1
              · rw [if_neg hne] at h1
                simp at h1
            · obtain ⟨j, hj1, hj2, hm, hne⟩ := (ih (k + 1) as1 m).mp h2
              refine ⟨j + 1, by simpa using Nat.succ_lt_succ hj1,
                by simpa using Nat.succ_lt_succ hj2, ?_, by simpa using hne⟩
              have hk : k + (j + 1) = (k + 1) + j := by omega
              rw [hk, List.getD_cons_succ, List.getD_cons_succ]
              exact hm
          · rintro ⟨j, hj1, hj2, hm, hne⟩
            cases j with
            | zero =>
                left
                have hne0 : a ≠ e := by simpa using hne
                rw [if_pos hne0, List.mem_singleton]
                simpa using hm
            | succ n =>
                right
                refine (ih (k + 1) as1 m).mpr ⟨n, by simpa using hj1, by simpa using hj2, ?_,
                  by simpa using hne⟩
                have hk : (k + 1) + n = k + (n + 1) := by omega
                rw [hk]
                simpa using hm

/-- C2: the verifier takes the recorded balance at index 0 as ground truth
(expected[0] is the recorded balance itself and index 0 is never reported
as a mismatch), computes every later expected balance by the rounded
recurrence expected[i] = round(expected[i-1] + deposit[i] - withdrawal[i], 2),
and reports exactly the set of indices whose recorded balance differs from
the expected one under exact equality — every mismatching index is in the
report, none is skipped (no short-circuit).  The pass is embedded as a pure
function of the ledger: the source parses the three columns into fresh
Series and mutates only an explicit copy, never the ledger itself. -/
theorem C2_verifier (df : List Txn) :
    (∀ m ∈ verify_transactions df, 0 < m.1) ∧
    (∀ t0 rest, df = t0 :: rest → (expectedTotals df).getD 0 0 = parseS t0.balance) ∧
    (∀ i, 0 < i → i < df.length →
      (expectedTotals df).getD i 0 =
        pyRound2 ((expectedTotals df).getD (i - 1) 0 +
          parseS ((df.getD i dummyTxn).deposits) -
          parseS ((df.getD i dummyTxn).withdrawals))) ∧
    (∀ i, i < df.length →
      ((i, (expectedTotals df).getD i 0, parseS ((df.getD i dummyTxn).balance)) ∈
          verify_transactions df ↔
        parseS ((df.getD i dummyTxn).balance) ≠ (expectedTotals df).getD i 0)) := by
  refine ⟨?_, ?_, ?_, ?_⟩
  · intro m hm
    unfold verify_transactions at hm
    rw [mem_mismatchesAux] at hm
    obtain ⟨j, hj1, hj2, hm', hne⟩ := hm
    cases df with
    | nil => rw [expectedTotals_length] at hj1; simp at hj1
    | cons t0 rest =>
        cases j with
        | zero =>
            exfalso
            apply hne
            have hT : ((t0 :: rest).map (fun t => parseS t.balance)).getD 0 0 =
                parseS t0.balance := rfl
            have hE : (expectedTotals (t0 :: rest)).getD 0 0 = parseS t0.balance := rfl
            rw [hT, hE]
        | succ n =>
            rw [hm']
            simp
  · intro t0 rest h
    subst h
    rfl
  · intro i h0 hi
    cases df with
    | nil => simp at hi
    | cons t0 rest =>
        cases i with
        | zero => omega
        | succ n =>
            have hn : n < (rest.map (fun t => (parseS t.deposits, parseS t.withdrawals))).length := by
              simp only [List.length_map]
              simpa [Nat.succ_lt_succ_iff] using hi
            have hn' : n < rest.length := by simpa using hn
            simp only [expectedTotals, List.getD_cons_succ, Nat.succ_sub_one]
            rw [expectedFrom_getD _ _ n hn]
            rw [map_getD_lt (fun t => (parseS t.deposits, parseS t.withdrawals)) rest dummyTxn
              (0, 0) n hn']
  · intro i hi
    unfold verify_transactions
    rw [mem_mismatchesAux]
    have hT : (df.map (fun t => parseS t.balance)).getD i 0 =
        parseS ((df.getD i dummyTxn).balance) :=
      map_getD_lt (fun t => parseS t.balance) df dummyTxn 0 i hi
    constructor
    · rintro ⟨j, hj1, hj2, hm, hne⟩
      have hji : j = i := by
        have := congrArg Prod.fst hm
        simpa using this.symm
      subst hji
      rw [hT] at hne
      exact hne
    · intro hne
      refine ⟨i, ?_, ?_, ?_, ?_⟩
      · rw [expectedTotals_length]; exact hi
      · rw [List.length_map]; exact hi
      · rw [hT]
        simp
      · rw [hT]
        exact hne

def C2ledger : List Txn :=
  [{ dummyTxn with balance := "100.00" },
   { dummyTxn with deposits := "10.50", balance := "110.50" },
   { dummyTxn with withdrawals := "0.25", balance := "110.00" }]

theorem C2_witness :
    0 < ((2, (expectedTotals C2ledger).getD 2 0,
          parseS ((C2ledger.getD 2 dummyTxn).balance)) : ℕ × ℚ × ℚ).1 ∧
    (expectedTotals C2ledger).getD 0 0 =
      parseS ({ dummyTxn with balance := "100.00" } : Txn).balance ∧
    (expectedTotals C2ledger).getD 2 0 =
      pyRound2 ((expectedTotals C2ledger).getD 1 0 +
        parseS ((C2ledger.getD 2 dummyTxn).deposits) -
        parseS ((C2ledger.getD 2 dummyTxn).withdrawals)) ∧
    ((2, (expectedTotals C2ledger).getD 2 0, parseS ((C2ledger.getD 2 dummyTxn).balance)) ∈
        verify_transactions C2ledger ↔
      parseS ((C2ledger.getD 2 dummyTxn).balance) ≠ (expectedTotals C2ledger).getD 2 0) :=
  ⟨(C2_verifier C2ledger).1
      (2, (expectedTotals C2ledger).getD 2 0, parseS ((C2ledger.getD 2 dummyTxn).balance))
      (by decide),
   (C2_verifier C2ledger).2.1 ({ dummyTxn with balance := "100.00" })
      [{ dummyTxn with deposits := "10.50", balance := "110.50" },
       { dummyTxn with withdrawals := "0.25", balance := "110.00" }] rfl,
   (C2_verifier C2ledger).2.2.1 2 (by omega) (by decide),
   (C2_verifier C2ledger).2.2.2 2 (by decide)⟩
